import Mathlib

/-!
Shallow embedding of the skyline `timesrv` clock core
(`services/timesrv/timesrv.{h,cpp}`, `services/timesrv/results.h`,
`common/uuid.h`) and proofs about its specified behaviour.

Machine integers are embedded as `Int`/`Nat`; the `u32` shared-memory
update counter wraps explicitly modulo `2^32`.  The external monotonic
source `util::GetTimeNs()` is passed to each reading operation as an
explicit `sourceNs` argument, and the stateful C++ objects are embedded
as explicit state-passing functions.
-/

namespace Skyline.Timesrv

/-- `constant::NsInSecond` from `common.h`: nanoseconds in one second. -/
def NsInSecond : Int := 1000000000

/-- `constant::NsInDay` from `common.h`: nanoseconds in one day. -/
def NsInDay : Int := 86400000000000

/-- `skyline::Result` value: a module/id error-code pair, where the
zero pair (the default `Result{}`) denotes success and any nonzero
pair denotes an error (`operator bool` on the C++ side). -/
structure ResultCode where
  errModule : Nat
  errId : Nat
deriving DecidableEq, Repr

/-- The default-constructed `Result{}`: success. -/
def ResultCode.success : ResultCode := ⟨0, 0⟩

namespace result

/-- `result::Unimplemented` = `Result(116, 990)` from `results.h`. -/
def Unimplemented : ResultCode := ⟨116, 990⟩

end result

/-- `ResultValue<T>`: either a success payload or an error `Result`. -/
inductive ResultValue (α : Type)
  | ok (value : α)
  | fail (code : ResultCode)
deriving DecidableEq, Repr

/-- Truthiness of `ResultValue` in C++ (`if (timePoint)`). -/
def ResultValue.isOk {α : Type} : ResultValue α → Bool
  | .ok _ => true
  | .fail _ => false

/-- Outcome of an operation that throws `skyline::exception` on failure
instead of returning a recoverable `Result`. -/
inductive FatalOr (α : Type)
  | ok (value : α)
  | exceptionRaised (msg : String)
deriving DecidableEq, Repr

/-- `skyline::UUID` (`common/uuid.h`): a raw 128-bit value. -/
structure UUID where
  raw : Nat
deriving DecidableEq, Repr

/-- `UUID::Valid()`: a UUID is valid iff its raw value is nonzero. -/
def UUID.Valid (u : UUID) : Bool := u.raw != 0

/-- `TimeSpanType`: a signed 64-bit nanosecond count. -/
structure TimeSpanType where
  ns : Int
deriving DecidableEq, Repr

namespace TimeSpanType

/-- `TimeSpanType::FromNanoseconds`. -/
def FromNanoseconds (n : Int) : TimeSpanType := ⟨n⟩

/-- `TimeSpanType::FromSeconds`: `s * constant::NsInSecond`. -/
def FromSeconds (s : Int) : TimeSpanType := ⟨s * NsInSecond⟩

/-- `TimeSpanType::FromDays`: `d * constant::NsInDay`. -/
def FromDays (d : Int) : TimeSpanType := ⟨d * NsInDay⟩

/-- `TimeSpanType::Nanoseconds`. -/
def Nanoseconds (t : TimeSpanType) : Int := t.ns

/-- `TimeSpanType::Seconds`: `ns / constant::NsInSecond`, C++ signed
division truncating toward zero. -/
def Seconds (t : TimeSpanType) : Int := t.ns.tdiv NsInSecond

/-- `operator+` on `TimeSpanType`. -/
def add (a b : TimeSpanType) : TimeSpanType := FromNanoseconds (a.ns + b.ns)

/-- `operator>` on `TimeSpanType`. -/
def isGreater (a b : TimeSpanType) : Bool := a.ns > b.ns

end TimeSpanType

/-- `SteadyClockTimePoint`: packed `{ i64 timePoint; UUID clockSourceId; }`,
seconds plus the originating clock source id. -/
structure SteadyClockTimePoint where
  timePoint : Int
  clockSourceId : UUID
deriving DecidableEq, Repr

/-- `SystemClockContext`: packed `{ SteadyClockTimePoint steadyTimePoint; u64 offset; }`. -/
structure SystemClockContext where
  steadyTimePoint : SteadyClockTimePoint
  offset : Nat
deriving DecidableEq, Repr

namespace SteadyClockCore

/-- `SteadyClockCore::GetRawTimePoint` (base, `timesrv.cpp` lines 33-40):
derives a duration from a `GetTimePoint` result, throwing an exception
("Error reading timepoint") when the underlying point is unavailable.
The virtual `GetTimePoint` call is represented by its result. -/
def GetRawTimePoint (timePointResult : ResultValue SteadyClockTimePoint) : FatalOr TimeSpanType :=
  match timePointResult with
  | .ok tp => .ok (TimeSpanType.FromSeconds tp.timePoint)
  | .fail _ => .exceptionRaised "Error reading timepoint"

/-- `SteadyClockCore::GetCurrentTimePoint` (`timesrv.cpp` lines 42-48):
on success adds `(GetTestOffset() + GetInternalOffset()).Seconds()` to the
point's seconds.  The virtual `GetTimePoint` call and the two offset
getters are represented by their results. -/
def GetCurrentTimePoint (timePointResult : ResultValue SteadyClockTimePoint)
    (testOffset internalOffset : TimeSpanType) : ResultValue SteadyClockTimePoint :=
  match timePointResult with
  | .ok tp => .ok { tp with timePoint := tp.timePoint + (testOffset.add internalOffset).Seconds }
  | .fail e => .fail e

end SteadyClockCore

namespace StandardSteadyClockCore

/-- Mutable state of `StandardSteadyClockCore` (`timesrv.h` lines 110-138). -/
structure State where
  testOffset : TimeSpanType
  internalOffset : TimeSpanType
  rtcOffset : TimeSpanType
  cachedValue : TimeSpanType
  id : UUID
deriving DecidableEq, Repr

/-- The state produced by the C++ default member initialisers:
all offsets and the cache zero, and `UUID id{}` the all-zero UUID. -/
def init : State :=
  { testOffset := ⟨0⟩, internalOffset := ⟨0⟩, rtcOffset := ⟨0⟩, cachedValue := ⟨0⟩, id := ⟨0⟩ }

/-- `StandardSteadyClockCore::GetRawTimePoint` (`timesrv.cpp` lines 60-69):
computes `timePoint = GetTimeNs() + rtcOffset`, raises `cachedValue` to
`timePoint` when `timePoint > cachedValue`, and returns `timePoint`.
`sourceNs` is the `util::GetTimeNs()` reading. -/
def GetRawTimePoint (sourceNs : Int) (s : State) : TimeSpanType × State :=
  let timePoint := (TimeSpanType.FromNanoseconds sourceNs).add s.rtcOffset
  if timePoint.isGreater s.cachedValue then
    (timePoint, { s with cachedValue := timePoint })
  else
    (timePoint, s)

/-- `StandardSteadyClockCore::GetTimePoint` (`timesrv.cpp` lines 51-58):
always succeeds with `{ GetRawTimePoint().Seconds(), id }`. -/
def GetTimePoint (sourceNs : Int) (s : State) : ResultValue SteadyClockTimePoint × State :=
  let raw := GetRawTimePoint sourceNs s
  (.ok { timePoint := raw.1.Seconds, clockSourceId := s.id }, raw.2)

end StandardSteadyClockCore

namespace TickBasedSteadyClockCore

/-- State of `TickBasedSteadyClockCore` (`timesrv.h` lines 140-146): just its id. -/
structure State where
  id : UUID
deriving DecidableEq, Repr

/-- The state produced by the C++ default member initialiser `UUID id{}`. -/
def init : State := { id := ⟨0⟩ }

/-- `TickBasedSteadyClockCore::GetTimePoint` (`timesrv.cpp` lines 71-78):
always succeeds with the raw source reading converted to seconds and
this core's id; no cache, no offset, no state change. -/
def GetTimePoint (sourceNs : Int) (s : State) : ResultValue SteadyClockTimePoint :=
  .ok { timePoint := (TimeSpanType.FromNanoseconds sourceNs).Seconds, clockSourceId := s.id }

end TickBasedSteadyClockCore

namespace SystemClockCore

/-- State of a base `SystemClockCore` (`timesrv.h` lines 148-168): the
stored context.  `StandardLocalSystemClockCore`,
`StandardNetworkSystemClockCore` and `EphemeralNetworkSystemClockCore`
add no overrides, so this state and the accessors below are exactly
their behaviour. -/
structure State where
  context : SystemClockContext
deriving DecidableEq, Repr

/-- Base virtual `SystemClockCore::GetClockContext`: returns the stored
context, always succeeding. -/
def GetClockContext (s : State) : ResultValue SystemClockContext := .ok s.context

/-- Base virtual `SystemClockCore::SetClockContext`: unconditionally
overwrites the stored context and succeeds. -/
def SetClockContext (pContext : SystemClockContext) (_ : State) : ResultCode × State :=
  (ResultCode.success, { context := pContext })

/-- `SystemClockCore::IsClockSetup` (`timesrv.cpp` lines 80-88): true
iff the (virtual) `GetClockContext` succeeds and the referenced steady
clock's `GetCurrentTimePoint` succeeds with a valid (nonzero) clock
source id.  The virtual `GetClockContext` call is represented by its
result and the steady clock by its `GetTimePoint` result plus its two
offsets, from which `GetCurrentTimePoint` is computed as in the source. -/
def IsClockSetup (contextResult : ResultValue SystemClockContext)
    (timePointResult : ResultValue SteadyClockTimePoint)
    (testOffset internalOffset : TimeSpanType) : Bool :=
  match contextResult with
  | .ok _ =>
    match SteadyClockCore.GetCurrentTimePoint timePointResult testOffset internalOffset with
    | .ok tp => tp.clockSourceId.Valid
    | .fail _ => false
  | .fail _ => false

end SystemClockCore

/-- Operations of the network system clock observed during a call to
`StandardUserSystemClockCore::GetClockContext`, in invocation order;
used to state that the disabled-correction path never touches the
network clock. -/
inductive NetworkClockOp
  | isClockSetup
  | getClockContext
deriving DecidableEq, Repr

namespace StandardUserSystemClockCore

/-- State of `StandardUserSystemClockCore` (`timesrv.h` lines 183-199):
the inherited stored context, the referenced local and network system
clocks, and the automatic-correction flag. -/
structure State where
  context : SystemClockContext
  localSystemClock : SystemClockCore.State
  networkSystemClock : SystemClockCore.State
  automaticCorrectionEnabled : Bool
deriving DecidableEq, Repr

/-- `StandardUserSystemClockCore::GetClockContext` (`timesrv.cpp` lines
90-102).  `steadyTimePoint`, `testOffset`, `internalOffset` represent
the referenced steady clock (shared by this core and the network clock)
as in `SystemClockCore.IsClockSetup`.  Besides the result and the new
state it returns the list of network-clock operations invoked, in
order; `&&` short-circuits, so with correction disabled the network
clock is not consulted at all. -/
def GetClockContext (steadyTimePoint : ResultValue SteadyClockTimePoint)
    (testOffset internalOffset : TimeSpanType) (s : State) :
    ResultValue SystemClockContext × State × List NetworkClockOp :=
  if s.automaticCorrectionEnabled then
    if SystemClockCore.IsClockSetup (SystemClockCore.GetClockContext s.networkSystemClock)
        steadyTimePoint testOffset internalOffset then
      match SystemClockCore.GetClockContext s.networkSystemClock with
      | .fail e => (.fail e, s, [.isClockSetup, .getClockContext])
      | .ok ctx =>
        match SystemClockCore.SetClockContext ctx s.localSystemClock with
        | (ret, localSystemClock') =>
          if ret = ResultCode.success then
            (SystemClockCore.GetClockContext localSystemClock',
             { s with localSystemClock := localSystemClock' },
             [.isClockSetup, .getClockContext])
          else
            (.fail ret, { s with localSystemClock := localSystemClock' },
             [.isClockSetup, .getClockContext])
    else
      (SystemClockCore.GetClockContext s.localSystemClock, s, [.isClockSetup])
  else
    (SystemClockCore.GetClockContext s.localSystemClock, s, [])

/-- `StandardUserSystemClockCore::SetClockContext` (`timesrv.h` lines
196-198): always returns `result::Unimplemented` and touches nothing. -/
def SetClockContext (_ : SystemClockContext) (s : State) : ResultCode × State :=
  (result.Unimplemented, s)

end StandardUserSystemClockCore

/-- One entry of `TimeSharedMemoryLayout` (`timesrv.cpp` lines 8-12):
a `u32` update counter and two value slots of the channel's type. -/
structure SystemClockContextEntry where
  updateCount : Nat
  slot0 : SystemClockContext
  slot1 : SystemClockContext
deriving DecidableEq, Repr

/-- The slot of an entry selected by a parity index (`item.at(n & 1)`). -/
def SystemClockContextEntry.slotAt (e : SystemClockContextEntry) (i : Nat) : SystemClockContext :=
  if i % 2 = 0 then e.slot0 else e.slot1

/-- Stores performed by a shared-memory publish, in program order; the
`storeBarrier` event is the `DMB ISHST` store-store barrier. -/
inductive ShmemEvent
  | writeSlot (index : Nat) (value : SystemClockContext)
  | storeBarrier
  | writeCounter (value : Nat)
deriving DecidableEq, Repr

/-- `UpdateTimeSharedMemoryItem` (`timesrv.cpp` lines 25-31): computes
`newCount = updateCount + 1` (u32, wrapping modulo `2^32`), writes the
new value into `item.at(newCount & 1)`, issues the store-store barrier,
then writes the counter.  Returns the updated entry together with the
ordered list of stores it performs. -/
def UpdateTimeSharedMemoryItem (e : SystemClockContextEntry) (newValue : SystemClockContext) :
    SystemClockContextEntry × List ShmemEvent :=
  let newCount := (e.updateCount + 1) % 4294967296
  let slotWritten :=
    if newCount % 2 = 0 then { e with slot0 := newValue } else { e with slot1 := newValue }
  ({ slotWritten with updateCount := newCount },
   [.writeSlot (newCount % 2) newValue, .storeBarrier, .writeCounter newCount])

namespace TimeSharedMemory

/-- The two context publish channels of the shared-memory region. -/
structure State where
  localSystemClockContextEntry : SystemClockContextEntry
  networkSystemClockContextEntry : SystemClockContextEntry
deriving DecidableEq, Repr

/-- `TimeSharedMemory::UpdateLocalSystemClockContext` (`timesrv.cpp`
lines 110-112). -/
def UpdateLocalSystemClockContext (shm : State) (context : SystemClockContext) :
    State × List ShmemEvent :=
  let r := UpdateTimeSharedMemoryItem shm.localSystemClockContextEntry context
  ({ shm with localSystemClockContextEntry := r.1 }, r.2)

/-- `TimeSharedMemory::UpdateNetworkSystemClockContext` (`timesrv.cpp`
lines 114-116). -/
def UpdateNetworkSystemClockContext (shm : State) (context : SystemClockContext) :
    State × List ShmemEvent :=
  let r := UpdateTimeSharedMemoryItem shm.networkSystemClockContextEntry context
  ({ shm with networkSystemClockContextEntry := r.1 }, r.2)

end TimeSharedMemory

/-- `SystemClockContextUpdateCallback::UpdateBaseContext` (`timesrv.cpp`
lines 118-125): no-op returning `false` when a context is already
stored and equals the new one; otherwise stores the new context and
returns `true`.  The stored `std::optional` context is the state. -/
def SystemClockContextUpdateCallback.UpdateBaseContext
    (context : Option SystemClockContext) (newContext : SystemClockContext) :
    Bool × Option SystemClockContext :=
  match context with
  | some c => if c = newContext then (false, some c) else (true, some newContext)
  | none => (true, some newContext)

/-- Return value of a writer's `UpdateContext`.  The no-change path
executes `return {};` and yields a `Result`; the publish/signal path of
all three C++ writers flows off the end of the `Result`-returning
function with no return statement, so its value is undefined — modelled
as a distinct `undefinedReturn` outcome rather than any `Result`. -/
inductive WriterResult
  | res (code : ResultCode)
  | undefinedReturn
deriving DecidableEq, Repr

/-- Observable effect of one `UpdateContext` call on a context writer:
its returned value (possibly undefined), the new stored dedup context,
the values published into the writer's shared-memory channel (empty or
a singleton), and the number of `SignalOperationEvent` rounds run. -/
structure WriterEffect where
  res : WriterResult
  context : Option SystemClockContext
  publishes : List SystemClockContext
  signalRounds : Nat
deriving DecidableEq, Repr

/-- `LocalSystemClockContextWriter::UpdateContext` (`timesrv.cpp` lines
134-142): dedup via `UpdateBaseContext`; no change executes `return {};`
(success); on change, publish into the local shared-memory channel,
then signal subscribers once — and fall off the end of the function
with no return statement, so the returned `Result` is undefined. -/
def LocalSystemClockContextWriter.UpdateContext
    (context : Option SystemClockContext) (newContext : SystemClockContext) : WriterEffect :=
  match SystemClockContextUpdateCallback.UpdateBaseContext context newContext with
  | (false, context') => ⟨.res ResultCode.success, context', [], 0⟩
  | (true, context') => ⟨.undefinedReturn, context', [newContext], 1⟩

/-- `NetworkSystemClockContextWriter::UpdateContext` (`timesrv.cpp`
lines 144-152): same shape as the local writer, publishing into the
network channel; the publish/signal path likewise ends without a return
statement. -/
def NetworkSystemClockContextWriter.UpdateContext
    (context : Option SystemClockContext) (newContext : SystemClockContext) : WriterEffect :=
  match SystemClockContextUpdateCallback.UpdateBaseContext context newContext with
  | (false, context') => ⟨.res ResultCode.success, context', [], 0⟩
  | (true, context') => ⟨.undefinedReturn, context', [newContext], 1⟩

/-- `EphemeralNetworkSystemClockContextWriter::UpdateContext`
(`timesrv.cpp` lines 154-160): dedup, then signal subscribers directly;
no shared-memory publish at all, and the signal path likewise ends
without a return statement. -/
def EphemeralNetworkSystemClockContextWriter.UpdateContext
    (context : Option SystemClockContext) (newContext : SystemClockContext) : WriterEffect :=
  match SystemClockContextUpdateCallback.UpdateBaseContext context newContext with
  | (false, context') => ⟨.res ResultCode.success, context', [], 0⟩
  | (true, context') => ⟨.undefinedReturn, context', [], 1⟩

/-- The three context writer variants. -/
inductive WriterKind
  | localWriter
  | networkWriter
  | ephemeralWriter
deriving DecidableEq, Repr

/-- Dispatch `UpdateContext` over the writer variants. -/
def writerUpdateContext (k : WriterKind) (context : Option SystemClockContext)
    (newContext : SystemClockContext) : WriterEffect :=
  match k with
  | .localWriter => LocalSystemClockContextWriter.UpdateContext context newContext
  | .networkWriter => NetworkSystemClockContextWriter.UpdateContext context newContext
  | .ephemeralWriter => EphemeralNetworkSystemClockContextWriter.UpdateContext context newContext

namespace Layout

/-- Size of `skyline::UUID` (a raw `u128`): 16 bytes. -/
def sizeofUUID : Nat := 16

/-- Size of packed `SteadyClockTimePoint`: an 8-byte `i64` seconds field
followed immediately by the 16-byte id, no padding. -/
def sizeofSteadyClockTimePoint : Nat := 8 + sizeofUUID

/-- Byte offset of `timePoint` within packed `SteadyClockTimePoint`. -/
def timePointFieldOffset : Nat := 0

/-- Byte offset of `clockSourceId` within packed `SteadyClockTimePoint`:
right after the 8-byte seconds field. -/
def clockSourceIdFieldOffset : Nat := timePointFieldOffset + 8

/-- Size of packed `SystemClockContext`: the 24-byte steady time point
followed immediately by an 8-byte `u64` offset. -/
def sizeofSystemClockContext : Nat := sizeofSteadyClockTimePoint + 8

/-- Size of `TimeSharedMemoryLayout::SystemClockContextEntry`:
`u32 updateCount`, `u32 _pad_`, then two context slots. -/
def sizeofSystemClockContextEntry : Nat := 4 + 4 + 2 * sizeofSystemClockContext

/-- Byte offset of `localSystemClockContextEntry` in
`TimeSharedMemoryLayout`: right after the `u8 _tmp_[0x38]` prefix. -/
def localEntryOffset : Nat := 0x38

/-- Byte offset of `networkSystemClockContextEntry`: the layout is
packed, so it follows the local entry immediately. -/
def networkEntryOffset : Nat := localEntryOffset + sizeofSystemClockContextEntry

/-- Byte offset of `automaticCorrectionEnabledEntry`: immediately after
the network entry. -/
def automaticCorrectionEntryOffset : Nat := networkEntryOffset + sizeofSystemClockContextEntry

/-- Size of the packed automatic-correction entry: `u32 updateCount`
plus a one-byte flag. -/
def sizeofAutomaticCorrectionEntry : Nat := 4 + 1

/-- `constant::TimeSharedMemorySize`. -/
def timeSharedMemorySize : Nat := 0x1000

end Layout

/-! ## Sample values used by concrete witnesses -/

/-- A sample context with a valid clock source id. -/
def sampleContext : SystemClockContext := ⟨⟨100, ⟨7⟩⟩, 5⟩

/-- A second sample context, structurally different from `sampleContext`. -/
def sampleContextB : SystemClockContext := ⟨⟨200, ⟨9⟩⟩, 6⟩

/-- A sample shared-memory entry with counter zero. -/
def sampleEntry : SystemClockContextEntry := ⟨0, sampleContextB, sampleContextB⟩

/-- A sample shared-memory state. -/
def sampleShmem : TimeSharedMemory.State := ⟨sampleEntry, sampleEntry⟩

/-! ## Helper lemmas -/

/-- Both branches of the raw-read cache update return the same value, so
`StandardSteadyClockCore::GetTimePoint` always succeeds with the source
reading plus `rtcOffset`, in seconds, tagged with the stored id. -/
lemma StandardSteadyClockCore.getTimePoint_fst (sourceNs : Int) (s : State) :
    (GetTimePoint sourceNs s).1
      = .ok ⟨((TimeSpanType.FromNanoseconds sourceNs).add s.rtcOffset).Seconds, s.id⟩ := by
  unfold GetTimePoint GetRawTimePoint
  dsimp only
  split <;> rfl

/-! ## Claims -/

/-- Claim C1, evaluated at the failing input: with `rtcOffset = 0` and a
fresh core, a first read at source time 100 s caches 100 s, and a
second read at source time 50 s returns the regressed fresh value 50 s
rather than the cached maximum — `GetRawTimePoint` updates
`cachedValue` but returns `timePoint`, so its results can decrease. -/
theorem standardSteadyClock_rawTimePoint_regression_demo :
    (StandardSteadyClockCore.GetRawTimePoint 100000000000 StandardSteadyClockCore.init).1
      = ⟨100000000000⟩
    ∧ (StandardSteadyClockCore.GetRawTimePoint 100000000000
        StandardSteadyClockCore.init).2.cachedValue = ⟨100000000000⟩
    ∧ (StandardSteadyClockCore.GetRawTimePoint 50000000000
        (StandardSteadyClockCore.GetRawTimePoint 100000000000
          StandardSteadyClockCore.init).2).1 = ⟨50000000000⟩
    ∧ (StandardSteadyClockCore.GetRawTimePoint 50000000000
        (StandardSteadyClockCore.GetRawTimePoint 100000000000
          StandardSteadyClockCore.init).2).2.cachedValue = ⟨100000000000⟩
    ∧ (50000000000 : Int) < 100000000000 := by
  decide

/-- Claim C2, counterexample: the default member initialiser `UUID id{}`
leaves both steady clock cores with the all-zero, invalid id at
construction, and `GetTimePoint` tags its result with that invalid id —
the id is not a freshly generated (nonzero) random value. -/
theorem steadyClock_id_nil_at_construction :
    StandardSteadyClockCore.init.id.Valid = false
    ∧ TickBasedSteadyClockCore.init.id.Valid = false
    ∧ (StandardSteadyClockCore.GetTimePoint 0 StandardSteadyClockCore.init).1
        = .ok ⟨0, ⟨0⟩⟩
    ∧ (TickBasedSteadyClockCore.GetTimePoint 0 TickBasedSteadyClockCore.init)
        = .ok ⟨0, ⟨0⟩⟩
    ∧ UUID.Valid ⟨0⟩ = false := by
  decide

/-- Claim C2, amended: at construction both steady clock cores hold the
all-zero (nil, invalid) clock source id, and every `GetTimePoint`
result carries exactly the core's stored id — so time points carry an
invalid id until some collaborator outside this core assigns one. -/
theorem steadyClock_timePoint_carries_stored_id
    (sourceNs : Int) (s : StandardSteadyClockCore.State) (t : TickBasedSteadyClockCore.State) :
    (StandardSteadyClockCore.GetTimePoint sourceNs s).1
      = .ok ⟨((TimeSpanType.FromNanoseconds sourceNs).add s.rtcOffset).Seconds, s.id⟩
    ∧ TickBasedSteadyClockCore.GetTimePoint sourceNs t
      = .ok ⟨(TimeSpanType.FromNanoseconds sourceNs).Seconds, t.id⟩
    ∧ StandardSteadyClockCore.init.id = ⟨0⟩
    ∧ TickBasedSteadyClockCore.init.id = ⟨0⟩
    ∧ UUID.Valid ⟨0⟩ = false :=
  ⟨StandardSteadyClockCore.getTimePoint_fst sourceNs s, rfl, rfl, rfl, rfl⟩

/-- Claim C7: `IsClockSetup` answers true exactly when the (virtual)
`GetClockContext` succeeds, the steady clock's `GetCurrentTimePoint`
succeeds, and the returned time point's clock source id is nonzero; in
particular an all-zero id yields false. -/
theorem isClockSetup_iff_context_and_valid_id
    (contextResult : ResultValue SystemClockContext)
    (timePointResult : ResultValue SteadyClockTimePoint)
    (testOffset internalOffset : TimeSpanType) :
    SystemClockCore.IsClockSetup contextResult timePointResult testOffset internalOffset = true
      ↔ contextResult.isOk = true
        ∧ ∃ tp, SteadyClockCore.GetCurrentTimePoint timePointResult testOffset internalOffset
              = .ok tp
            ∧ tp.clockSourceId.raw ≠ 0 := by
  cases contextResult <;> cases timePointResult <;>
    simp [SystemClockCore.IsClockSetup, SteadyClockCore.GetCurrentTimePoint,
      ResultValue.isOk, UUID.Valid]

/-- Claim C9: `StandardUserSystemClockCore::SetClockContext` always
returns the recoverable `result::Unimplemented` value (not success, not
a crash) and leaves the user, local and network clocks' stored
contexts — the whole state — unchanged. -/
theorem userClock_setClockContext_unimplemented
    (ctx : SystemClockContext) (s : StandardUserSystemClockCore.State) :
    StandardUserSystemClockCore.SetClockContext ctx s = (result.Unimplemented, s)
    ∧ result.Unimplemented ≠ ResultCode.success :=
  ⟨rfl, by decide⟩

/-- Claim C3: with automatic correction enabled and the network clock
reporting `IsClockSetup`, `StandardUserSystemClockCore::GetClockContext`
stores the network clock's context C into the local clock and returns
C; a subsequent read of the local clock also yields C. -/
theorem userClock_getClockContext_propagates_network
    (steadyTimePoint : ResultValue SteadyClockTimePoint)
    (testOffset internalOffset : TimeSpanType) (s : StandardUserSystemClockCore.State)
    (hEnabled : s.automaticCorrectionEnabled = true)
    (hSetup : SystemClockCore.IsClockSetup
        (SystemClockCore.GetClockContext s.networkSystemClock)
        steadyTimePoint testOffset internalOffset = true) :
    StandardUserSystemClockCore.GetClockContext steadyTimePoint testOffset internalOffset s
      = (.ok s.networkSystemClock.context,
         { s with localSystemClock := ⟨s.networkSystemClock.context⟩ },
         [.isClockSetup, .getClockContext])
    ∧ SystemClockCore.GetClockContext
        (StandardUserSystemClockCore.GetClockContext steadyTimePoint testOffset
          internalOffset s).2.1.localSystemClock
      = .ok s.networkSystemClock.context := by
  have hSetup' : SystemClockCore.IsClockSetup (.ok s.networkSystemClock.context)
      steadyTimePoint testOffset internalOffset = true := hSetup
  constructor <;>
    simp [StandardUserSystemClockCore.GetClockContext, SystemClockCore.GetClockContext,
      SystemClockCore.SetClockContext, hEnabled, hSetup', ResultCode.success]

/-- Claim C3 witness: a concrete user clock with correction enabled and
a setup network clock propagates and returns the network context. -/
theorem userClock_getClockContext_propagates_network_witness :
    (StandardUserSystemClockCore.State.mk sampleContextB ⟨sampleContextB⟩ ⟨sampleContext⟩
        true).automaticCorrectionEnabled = true
    ∧ SystemClockCore.IsClockSetup
        (SystemClockCore.GetClockContext (StandardUserSystemClockCore.State.mk sampleContextB
          ⟨sampleContextB⟩ ⟨sampleContext⟩ true).networkSystemClock)
        (.ok ⟨5, ⟨7⟩⟩) ⟨0⟩ ⟨0⟩ = true
    ∧ (StandardUserSystemClockCore.GetClockContext (.ok ⟨5, ⟨7⟩⟩) ⟨0⟩ ⟨0⟩
        (StandardUserSystemClockCore.State.mk sampleContextB ⟨sampleContextB⟩ ⟨sampleContext⟩ true)
        = (.ok sampleContext,
           StandardUserSystemClockCore.State.mk sampleContextB ⟨sampleContext⟩ ⟨sampleContext⟩ true,
           [.isClockSetup, .getClockContext])
      ∧ SystemClockCore.GetClockContext
          (StandardUserSystemClockCore.GetClockContext (.ok ⟨5, ⟨7⟩⟩) ⟨0⟩ ⟨0⟩
            (StandardUserSystemClockCore.State.mk sampleContextB ⟨sampleContextB⟩
              ⟨sampleContext⟩ true)).2.1.localSystemClock
        = .ok sampleContext) :=
  ⟨rfl, by decide,
    userClock_getClockContext_propagates_network (.ok ⟨5, ⟨7⟩⟩) ⟨0⟩ ⟨0⟩
      (StandardUserSystemClockCore.State.mk sampleContextB ⟨sampleContextB⟩ ⟨sampleContext⟩ true)
      rfl (by decide)⟩

/-- Claim C4: with automatic correction disabled,
`StandardUserSystemClockCore::GetClockContext` performs no operation of
the network clock (empty operation trace), returns exactly the local
clock's stored context, and leaves the whole state — including both
stored contexts — unchanged. -/
theorem userClock_getClockContext_correction_disabled
    (steadyTimePoint : ResultValue SteadyClockTimePoint)
    (testOffset internalOffset : TimeSpanType) (s : StandardUserSystemClockCore.State)
    (hDisabled : s.automaticCorrectionEnabled = false) :
    StandardUserSystemClockCore.GetClockContext steadyTimePoint testOffset internalOffset s
      = (.ok s.localSystemClock.context, s, []) := by
  simp [StandardUserSystemClockCore.GetClockContext, SystemClockCore.GetClockContext, hDisabled]

/-- Claim C4 witness: a concrete user clock with correction disabled
reads back its local context without touching the network clock. -/
theorem userClock_getClockContext_correction_disabled_witness :
    (StandardUserSystemClockCore.State.mk sampleContextB ⟨sampleContextB⟩ ⟨sampleContext⟩
        false).automaticCorrectionEnabled = false
    ∧ StandardUserSystemClockCore.GetClockContext (.ok ⟨5, ⟨7⟩⟩) ⟨0⟩ ⟨0⟩
        (StandardUserSystemClockCore.State.mk sampleContextB ⟨sampleContextB⟩ ⟨sampleContext⟩ false)
      = (.ok sampleContextB,
         StandardUserSystemClockCore.State.mk sampleContextB ⟨sampleContextB⟩ ⟨sampleContext⟩ false,
         []) :=
  ⟨rfl,
    userClock_getClockContext_correction_disabled (.ok ⟨5, ⟨7⟩⟩) ⟨0⟩ ⟨0⟩
      (StandardUserSystemClockCore.State.mk sampleContextB ⟨sampleContextB⟩ ⟨sampleContext⟩ false)
      rfl⟩

/-- Claim C5, counterexample: the ephemeral writer performs no
shared-memory publish at all, so a pair of identical `UpdateContext`
calls on it yields zero publishes (and one signal round), not the
"exactly one shared-memory publish" the claim asserts for every
writer. -/
theorem ephemeralWriter_pair_publishes_nothing :
    ¬ ((EphemeralNetworkSystemClockContextWriter.UpdateContext none sampleContext).publishes.length
        + (EphemeralNetworkSystemClockContextWriter.UpdateContext
            (EphemeralNetworkSystemClockContextWriter.UpdateContext none sampleContext).context
            sampleContext).publishes.length = 1)
    ∧ (EphemeralNetworkSystemClockContextWriter.UpdateContext none sampleContext).publishes.length
        + (EphemeralNetworkSystemClockContextWriter.UpdateContext
            (EphemeralNetworkSystemClockContextWriter.UpdateContext none sampleContext).context
            sampleContext).publishes.length = 0
    ∧ (EphemeralNetworkSystemClockContextWriter.UpdateContext none sampleContext).signalRounds
        + (EphemeralNetworkSystemClockContextWriter.UpdateContext
            (EphemeralNetworkSystemClockContextWriter.UpdateContext none sampleContext).context
            sampleContext).signalRounds = 1 := by
  decide

/-- Claim C5, amended: `UpdateBaseContext` returns false exactly when a
context is already stored and structurally equal to the new one; a pair
of identical `UpdateContext` calls performs one shared-memory publish
for the local and network writers and none for the ephemeral writer
(zero for all writers when the context was already stored equal), and
one signal round (zero when already stored equal); the no-op call
returns success via `return {};`, while on the publish/signal path the
C++ function ends without a return statement, so that call's returned
`Result` is undefined. -/
theorem writer_updateContext_dedup
    (k : WriterKind) (stored : Option SystemClockContext) (ctx : SystemClockContext) :
    ((SystemClockContextUpdateCallback.UpdateBaseContext stored ctx).1 = false
        ↔ stored = some ctx)
    ∧ ((writerUpdateContext k stored ctx).publishes.length
        + (writerUpdateContext k (writerUpdateContext k stored ctx).context ctx).publishes.length
        = if stored = some ctx then 0 else if k = .ephemeralWriter then 0 else 1)
    ∧ ((writerUpdateContext k stored ctx).signalRounds
        + (writerUpdateContext k (writerUpdateContext k stored ctx).context ctx).signalRounds
        = if stored = some ctx then 0 else 1)
    ∧ ((writerUpdateContext k stored ctx).res
        = if stored = some ctx then .res ResultCode.success else .undefinedReturn)
    ∧ (writerUpdateContext k (writerUpdateContext k stored ctx).context ctx).res
        = .res ResultCode.success := by
  rcases stored with _ | v
  · cases k <;>
      simp [writerUpdateContext, LocalSystemClockContextWriter.UpdateContext,
        NetworkSystemClockContextWriter.UpdateContext,
        EphemeralNetworkSystemClockContextWriter.UpdateContext,
        SystemClockContextUpdateCallback.UpdateBaseContext]
  · by_cases h : v = ctx
    · subst h
      cases k <;>
        simp [writerUpdateContext, LocalSystemClockContextWriter.UpdateContext,
          NetworkSystemClockContextWriter.UpdateContext,
          EphemeralNetworkSystemClockContextWriter.UpdateContext,
          SystemClockContextUpdateCallback.UpdateBaseContext]
    · cases k <;>
        simp [writerUpdateContext, LocalSystemClockContextWriter.UpdateContext,
          NetworkSystemClockContextWriter.UpdateContext,
          EphemeralNetworkSystemClockContextWriter.UpdateContext,
          SystemClockContextUpdateCallback.UpdateBaseContext, h]

/-- Claim C6: a direct publish with current counter `c` sets the
counter to `c + 1` (as a wrapping u32), writes the value into the slot
indexed by `(c + 1) mod 2`, performs exactly the store sequence
slot-write, store-store barrier, counter-write — in that order — and
always advances the counter, even when the value equals the previous
one; the two `TimeSharedMemory` channel updates apply exactly this
publish to their respective entries. -/
theorem updateTimeSharedMemoryItem_publish
    (e : SystemClockContextEntry) (v : SystemClockContext) (shm : TimeSharedMemory.State) :
    (UpdateTimeSharedMemoryItem e v).1.updateCount = (e.updateCount + 1) % 4294967296
    ∧ (UpdateTimeSharedMemoryItem e v).1.slotAt ((e.updateCount + 1) % 2) = v
    ∧ (UpdateTimeSharedMemoryItem e v).2
        = [.writeSlot (((e.updateCount + 1) % 4294967296) % 2) v, .storeBarrier,
           .writeCounter ((e.updateCount + 1) % 4294967296)]
    ∧ (UpdateTimeSharedMemoryItem e v).1.updateCount ≠ e.updateCount
    ∧ TimeSharedMemory.UpdateLocalSystemClockContext shm v
        = ({ shm with localSystemClockContextEntry :=
              (UpdateTimeSharedMemoryItem shm.localSystemClockContextEntry v).1 },
           (UpdateTimeSharedMemoryItem shm.localSystemClockContextEntry v).2)
    ∧ TimeSharedMemory.UpdateNetworkSystemClockContext shm v
        = ({ shm with networkSystemClockContextEntry :=
              (UpdateTimeSharedMemoryItem shm.networkSystemClockContextEntry v).1 },
           (UpdateTimeSharedMemoryItem shm.networkSystemClockContextEntry v).2) := by
  have hmod : ((e.updateCount + 1) % 4294967296) % 2 = (e.updateCount + 1) % 2 :=
    Nat.mod_mod_of_dvd _ (by norm_num)
  refine ⟨rfl, ?_, rfl, ?_, rfl, rfl⟩
  · by_cases hp : (e.updateCount + 1) % 2 = 0 <;>
      simp [UpdateTimeSharedMemoryItem, SystemClockContextEntry.slotAt, hmod, hp]
  · show (e.updateCount + 1) % 4294967296 ≠ e.updateCount
    omega

/-- Claim C8: the packed wire layout is bit-exact as specified — the
local channel at byte offset 0x38 and the network channel at 0x80, each
0x48 bytes, the automatic-correction flag channel at 0xC8 with a u32
counter and a one-byte flag, a 24-byte `SteadyClockTimePoint` (8-byte
seconds at offset 0, 16-byte id at offset 8, no padding), a 32-byte
`SystemClockContext`, all inside the 4096-byte region. -/
theorem timeSharedMemoryLayout_offsets :
    Layout.localEntryOffset = 0x38
    ∧ Layout.networkEntryOffset = 0x80
    ∧ Layout.automaticCorrectionEntryOffset = 0xC8
    ∧ Layout.sizeofSystemClockContextEntry = 0x48
    ∧ Layout.sizeofSteadyClockTimePoint = 24
    ∧ Layout.timePointFieldOffset = 0
    ∧ Layout.clockSourceIdFieldOffset = 8
    ∧ Layout.clockSourceIdFieldOffset + Layout.sizeofUUID = Layout.sizeofSteadyClockTimePoint
    ∧ Layout.sizeofSystemClockContext = 32
    ∧ Layout.sizeofAutomaticCorrectionEntry = 4 + 1
    ∧ Layout.timeSharedMemorySize = 4096
    ∧ Layout.automaticCorrectionEntryOffset + Layout.sizeofAutomaticCorrectionEntry
        ≤ Layout.timeSharedMemorySize := by
  decide

/-- Claim C10: `GetTimePoint` on both concrete steady clock variants
always succeeds, so the exception branch of the base `GetRawTimePoint`
and the failure branches of `GetCurrentTimePoint` and `IsClockSetup`
are unreachable for them: raw and current readings derived from these
variants always succeed, and `IsClockSetup` over a successful context
reduces to the validity of the variant's stored id. -/
theorem steadyClock_getTimePoint_infallible
    (sourceNs : Int) (s : StandardSteadyClockCore.State) (t : TickBasedSteadyClockCore.State)
    (testOffset internalOffset : TimeSpanType) (ctx : SystemClockContext) :
    (StandardSteadyClockCore.GetTimePoint sourceNs s).1.isOk = true
    ∧ (TickBasedSteadyClockCore.GetTimePoint sourceNs t).isOk = true
    ∧ (∃ d, SteadyClockCore.GetRawTimePoint ((StandardSteadyClockCore.GetTimePoint sourceNs s).1)
          = .ok d)
    ∧ (∃ d, SteadyClockCore.GetRawTimePoint (TickBasedSteadyClockCore.GetTimePoint sourceNs t)
          = .ok d)
    ∧ (∃ tp, SteadyClockCore.GetCurrentTimePoint ((StandardSteadyClockCore.GetTimePoint sourceNs s).1)
          testOffset internalOffset = .ok tp)
    ∧ (∃ tp, SteadyClockCore.GetCurrentTimePoint (TickBasedSteadyClockCore.GetTimePoint sourceNs t)
          testOffset internalOffset = .ok tp)
    ∧ SystemClockCore.IsClockSetup (.ok ctx) ((StandardSteadyClockCore.GetTimePoint sourceNs s).1)
        testOffset internalOffset = s.id.Valid
    ∧ SystemClockCore.IsClockSetup (.ok ctx) (TickBasedSteadyClockCore.GetTimePoint sourceNs t)
        testOffset internalOffset = t.id.Valid := by
  rw [StandardSteadyClockCore.getTimePoint_fst]
  simp [TickBasedSteadyClockCore.GetTimePoint, SteadyClockCore.GetRawTimePoint,
    SteadyClockCore.GetCurrentTimePoint, SystemClockCore.IsClockSetup, ResultValue.isOk]

end Skyline.Timesrv
